import Mathlib

/-!
Verification of the real-time spoken-conversation pipeline of the rollplay
repository.  The definitions below are a shallow embedding of

* `AudioRecorder` in `src/src/lib/audio.ts` — in particular the VAD
  monitoring interval callback `startVADMonitoring` (lines 469-590), the
  silence timeout it schedules (lines 566-584), and the VAD stop path
  `stopVADRecording` (lines 646-676);
* the streaming conversation component in `src/unnamed/part_016` — in
  particular `stopAllAudio` (lines 181-226), `playbackLoop` (lines 243-289),
  the SSE chunk handler of `handleSendStream` (lines 329-407), the VAD stop
  callback wired in `handleToggleVAD` (lines 740-811), and the manual
  recording handler `handleStopRecording` (second revision, lines 1269-1334).

Time is in milliseconds (`Date.now()` values); the monitoring interval runs
every 100ms.  Loudness levels are exact rationals: the source computes
`level = (max / 255) * 100` from the analyser's byte array and compares it
with integer thresholds, which we mirror with `ℚ`.
-/

namespace Rollplay

/-- VAD configuration constants of `AudioRecorder`
(`src/src/lib/audio.ts` lines 26-39): detection threshold 75, interrupt
threshold 85, silence window 400ms, minimum recording duration 1000ms,
required voice continuation 400ms. -/
structure VadConfig where
  vadThreshold : Nat := 75
  vadInterruptThreshold : Nat := 85
  silenceDuration : Nat := 400
  minRecordingDuration : Nat := 1000
  voiceContinueDuration : Nat := 400
  deriving DecidableEq, Repr

/-- The default configuration hard-coded in the source. -/
def defaultConfig : VadConfig := {}

/-- The loudness level the monitoring callback derives from the analyser's
byte frequency data: `level = (max / 255) * 100` where `max` is the maximum
byte (0..255) of the array (`src/src/lib/audio.ts` lines 481-491). -/
def levelOf (maxByte : Nat) : ℚ := (maxByte : ℚ) / 255 * 100

/-- Observable actions of the VAD monitor.  `speechStarted` stands for
`startVADRecording` plus the `onVadStartCallback` invocation; `speechEnded d`
for the silence timeout reaching `stopVADRecording` with recording duration
`d` (the only path that can invoke `onVadStopCallback`, behind which the
`/api/transcribe` request sits); `discarded d` for the silence timeout
cancelling a too-short recording without any callback; `interrupt` for the
`onInterruptCallback` invocation. -/
inductive VoiceEvent where
  | speechStarted
  | speechEnded (durationMs : Nat)
  | interrupt
  | discarded (durationMs : Nat)
  deriving DecidableEq, Repr

/-- Only the `speechEnded` path can reach the speech-to-text collaborator:
`onVadStopCallback` (which posts to `/api/transcribe`) is invoked solely from
`stopVADRecording`, which the monitor calls only on the non-short branch of
the silence timeout. -/
def forwardsToSTT : VoiceEvent → Bool
  | .speechEnded _ => true
  | _ => false

/-- Mutable VAD state of `AudioRecorder`.  `voiceStartTime = 0` is the
source's sentinel for "no tentative onset"; `silenceDeadline` models the
pending `silenceTimeout` by the absolute time at which it is due to fire. -/
@[ext]
structure VadState where
  vadPaused : Bool := false
  isInterruptMode : Bool := false
  isVadRecording : Bool := false
  voiceStartTime : Nat := 0
  recordingStartTime : Nat := 0
  silenceDeadline : Option Nat := none
  deriving DecidableEq, Repr

/-- The state right after `startVAD`. -/
def initVad : VadState := {}

/-- One run of the `startVADMonitoring` interval callback
(`src/src/lib/audio.ts` lines 500-589) at time `now` with the measured
`level`, without the pending-timeout bookkeeping (see `vadStep`):
1. while paused and not in interrupt mode, do nothing;
2. in interrupt mode, a level above the interrupt threshold fires the
   interrupt callback and immediately starts a recording;
3. otherwise a level above the detection threshold starts a recording once
   the voice has continued for `voiceContinueDuration`, and clears any
   pending silence timeout;
4. otherwise the tentative onset is reset and, while recording, a silence
   timeout is scheduled if none is pending. -/
def vadTick (cfg : VadConfig) (s : VadState) (now : Nat) (level : ℚ) :
    VadState × List VoiceEvent :=
  if s.vadPaused ∧ ¬s.isInterruptMode then (s, [])
  else if s.isInterruptMode ∧ (cfg.vadInterruptThreshold : ℚ) < level then
    ({ s with isInterruptMode := false, isVadRecording := true,
              recordingStartTime := now },
     [.interrupt, .speechStarted])
  else if ¬s.isInterruptMode ∧ (cfg.vadThreshold : ℚ) < level then
    if ¬s.isVadRecording then
      let s1 := if s.voiceStartTime = 0 then { s with voiceStartTime := now } else s
      if cfg.voiceContinueDuration ≤ now - s1.voiceStartTime then
        ({ s1 with isVadRecording := true, recordingStartTime := now,
                   voiceStartTime := 0, silenceDeadline := none },
         [.speechStarted])
      else ({ s1 with silenceDeadline := none }, [])
    else ({ s with voiceStartTime := 0, silenceDeadline := none }, [])
  else
    let s1 := { s with voiceStartTime := 0 }
    if s1.isVadRecording ∧ s1.silenceDeadline = none then
      ({ s1 with silenceDeadline := some (now + cfg.silenceDuration) }, [])
    else (s1, [])

/-- The silence-timeout callback (`src/src/lib/audio.ts` lines 566-584),
firing at time `fireAt`: a recording shorter than `minRecordingDuration` is
cancelled without any callback; otherwise `stopVADRecording` runs. -/
def silenceFire (cfg : VadConfig) (s : VadState) (fireAt : Nat) :
    VadState × List VoiceEvent :=
  let recordingDuration := fireAt - s.recordingStartTime
  if recordingDuration < cfg.minRecordingDuration then
    ({ s with isVadRecording := false, silenceDeadline := none },
     [.discarded recordingDuration])
  else
    ({ s with isVadRecording := false, silenceDeadline := none },
     [.speechEnded recordingDuration])

/-- One 100ms monitor step at time `now`: a silence timeout that has come
due fires first (at its own due time), then the interval callback processes
the level sample.  Every emitted event is tagged with the time it happened. -/
def vadStep (cfg : VadConfig) (s : VadState) (now : Nat) (level : ℚ) :
    VadState × List (Nat × VoiceEvent) :=
  match s.silenceDeadline with
  | some d =>
    if d ≤ now then
      let f := silenceFire cfg s d
      let t := vadTick cfg f.1 now level
      (t.1, f.2.map (fun e => (d, e)) ++ t.2.map (fun e => (now, e)))
    else
      let t := vadTick cfg s now level
      (t.1, t.2.map (fun e => (now, e)))
  | none =>
    let t := vadTick cfg s now level
    (t.1, t.2.map (fun e => (now, e)))

/-- Run the monitor over a list of timestamped level samples, collecting all
emitted events in order. -/
def runVAD (cfg : VadConfig) (s : VadState) :
    List (Nat × ℚ) → VadState × List (Nat × VoiceEvent)
  | [] => (s, [])
  | (t, l) :: rest =>
    let p := vadStep cfg s t l
    let q := runVAD cfg p.1 rest
    (q.1, p.2 ++ q.2)

/-- Level samples at the interval's 100ms cadence, the first at time `t0`. -/
def ticksFrom (t0 : Nat) : List ℚ → List (Nat × ℚ)
  | [] => []
  | l :: ls => (t0, l) :: ticksFrom (t0 + 100) ls

/-- One decoded reply chunk as held by the playback queue of
`handleSendStream` (`src/unnamed/part_016` line 161): the decoded audio bytes
paired with the chunk's text fragment. -/
@[ext]
structure AudioItem where
  audio : List Nat
  text : String
  deriving DecidableEq, Repr

/-- The per-reply mutable playback variables of `handleSendStream`
(`src/unnamed/part_016` lines 160-168 and the refs of the component):
`streamReader` is whether the saved SSE reader is still active,
`currentAudioSource` whether a Web Audio source is currently sounding,
`currentAudio` whether a legacy `HTMLAudioElement` is set. -/
@[ext]
structure PlaybackState where
  audioQueue : List AudioItem := []
  isPlaying : Bool := false
  currentAudio : Bool := false
  interruptModeEnabled : Bool := false
  streamReader : Bool := false
  playbackLoopRunning : Bool := false
  resolveWaiter : Bool := false
  currentAudioSource : Bool := false
  deriving DecidableEq, Repr

/-- Recorder state plus the playback variables it can reach through the
interrupt callback. -/
@[ext]
structure AppState where
  vad : VadState := {}
  pb : PlaybackState := {}
  deriving DecidableEq, Repr

/-- `stopAllAudio` (`src/unnamed/part_016` lines 181-226): cancel the SSE
reader, stop the Web Audio source and the legacy audio element, clear the
queue and the playing flag, disable interrupt mode (both the local flag and
`audioRecorderRef.disableInterruptMode()`), and resolve any pending queue
waiter. -/
def stopAllAudio (s : AppState) : AppState :=
  { vad := { s.vad with isInterruptMode := false },
    pb := { s.pb with
              streamReader := false,
              currentAudioSource := false,
              currentAudio := false,
              audioQueue := [],
              isPlaying := false,
              interruptModeEnabled := false,
              resolveWaiter := false } }

/-- The wiring of `handleSendStream`: the recorder's `onInterruptCallback`
is `stopAllAudio` (`src/unnamed/part_016` line 388); the other VAD callbacks
do not touch the playback variables. -/
def dispatch (s : AppState) : VoiceEvent → AppState
  | .interrupt => stopAllAudio s
  | _ => s

/-- One monitor step of the whole app: the recorder step plus the callback
effects of the events it emitted. -/
def appStep (cfg : VadConfig) (s : AppState) (now : Nat) (level : ℚ) :
    AppState × List (Nat × VoiceEvent) :=
  let p := vadStep cfg s.vad now level
  (p.2.foldl (fun a te => dispatch a te.2) { s with vad := p.1 }, p.2)

/-! ### The playback loop of `handleSendStream`

`playbackLoop` (`src/unnamed/part_016` lines 243-289) runs concurrently with
the SSE read loop (lines 321-408).  We model the interleaving as a labelled
transition system whose labels are the scheduler's choices: delivery of a
decoded chunk by the read loop, the end of the stream (after which the read
loop sets `playbackLoopRunning = false`, line 411), the playback loop
running from one suspension point to the next, and completion of the
currently sounding chunk. -/

/-- Control point of the playback loop coroutine: `ready` before the
`while` check, `waiting` suspended inside `waitForQueue` with `resolveWaiter`
stored, `playing c` suspended in `await playAudioWithWebAudio`, `exited`
after the loop broke and ran its cleanup. -/
inductive LoopPC where
  | ready
  | waiting
  | playing (item : AudioItem)
  | exited
  deriving DecidableEq, Repr

/-- Shared state of the read loop and the playback loop: the queue, the
`isPlaying` and `playbackLoopRunning` flags, whether a `resolveWaiter` is
stored (`src/unnamed/part_016` lines 168-178), whether the stream has ended,
the chunks played to completion so far, and the loop's control point. -/
@[ext]
structure SessionState where
  queue : List AudioItem := []
  isPlaying : Bool := false
  running : Bool := true
  waiter : Bool := false
  streamEnded : Bool := false
  played : List AudioItem := []
  pc : LoopPC := .ready
  deriving DecidableEq, Repr

/-- Scheduler labels for one reply session (interrupt-free). -/
inductive SessionLabel where
  | deliver (item : AudioItem)
  | streamEnd
  | loopRun
  | finishPlay
  deriving DecidableEq, Repr

/-- Small-step semantics of one reply session:
* `deliver it` — the read loop enqueues a decoded chunk
  (`audioQueue.push`, line 376) and wakes a stored waiter (lines 380-383);
* `streamEnd` — the read loop finishes and sets `playbackLoopRunning = false`
  (line 411) without waking a stored waiter;
* `loopRun` — the playback loop advances from `ready`: it exits when the
  running flag is down (both the `while` condition and the post-wait `break`,
  lines 247-250), suspends in `waitForQueue` when the queue is empty
  (lines 171-178), and otherwise pops the head chunk and starts playing it
  (lines 253-256);
* `finishPlay` — `playAudioWithWebAudio` resolves: the chunk has sounded to
  completion and `isPlaying` is reset (lines 273-279). -/
def sessStep (s : SessionState) : SessionLabel → SessionState
  | .deliver it =>
    let s1 := { s with queue := s.queue ++ [it] }
    if s1.waiter then { s1 with waiter := false, pc := .ready } else s1
  | .streamEnd => { s with streamEnded := true, running := false }
  | .loopRun =>
    match s.pc with
    | .ready =>
      if ¬s.running then { s with pc := .exited }
      else
        match s.queue with
        | [] => { s with waiter := true, pc := .waiting }
        | it :: rest =>
          if ¬s.isPlaying then
            { s with queue := rest, isPlaying := true, pc := .playing it }
          else s
    | _ => s
  | .finishPlay =>
    match s.pc with
    | .playing it =>
      { s with played := s.played ++ [it], isPlaying := false, pc := .ready }
    | _ => s

/-- Run a session under a given schedule. -/
def runSession (s : SessionState) (labels : List SessionLabel) : SessionState :=
  labels.foldl sessStep s

/-! ### The SSE chunk handler of `handleSendStream` -/

/-- One parsed `data:` event of the reply stream
(`src/unnamed/part_016` lines 333-401): the sequence number `data.chunk`,
the text fragment, the decoded audio bytes when `data.audio` is present
(base64 decoding is abstracted to the resulting bytes), and the server
error flag. -/
@[ext]
structure SSEEvent where
  chunk : Nat
  text : String
  audio : Option (List Nat)
  error : Bool := false
  deriving DecidableEq, Repr

/-- Accumulated effect of the SSE events processed so far: the playback
queue, the concatenated reply text, whether an error toast was shown, and
whether interrupt mode has been armed. -/
@[ext]
structure StreamAccum where
  queue : List AudioItem := []
  fullText : String := ""
  toastError : Bool := false
  interruptModeEnabled : Bool := false
  deriving DecidableEq, Repr

/-- Processing of one parsed SSE event (`src/unnamed/part_016`
lines 333-401): a server error shows a toast and continues; an event with
audio appends the decoded chunk to the queue in arrival order, extends the
full text, and arms interrupt mode on the first chunk in VAD mode.  The
sequence number `data.chunk` is only interpolated into a log line (line 401)
and never otherwise read. -/
def handleSSE (vadMode : Bool) (a : StreamAccum) (e : SSEEvent) : StreamAccum :=
  if e.error then { a with toastError := true }
  else
    match e.audio with
    | some bytes =>
      { a with
          queue := a.queue ++ [⟨bytes, e.text⟩],
          fullText := a.fullText ++ e.text,
          interruptModeEnabled :=
            if vadMode ∧ ¬a.interruptModeEnabled then true
            else a.interruptModeEnabled }
    | none => a

/-- Process a whole sequence of parsed SSE events. -/
def consumeStream (vadMode : Bool) (evs : List SSEEvent) : StreamAccum :=
  evs.foldl (handleSSE vadMode) {}

/-- Replace the sequence number of a parsed SSE event. -/
def setChunk (n : Nat) (e : SSEEvent) : SSEEvent := { e with chunk := n }

/-! ### Captured-segment size checks -/

/-- Blob size assembled by `stopVADRecording` (`src/src/lib/audio.ts`
lines 652-657): `ondataavailable` pushes only chunks of positive size
(lines 621-626), and the blob is their concatenation. -/
def vadBlobSize (chunks : List Nat) : Nat :=
  (chunks.filter (fun c => 0 < c)).sum

/-- The `onstop` handler of `stopVADRecording` (`src/src/lib/audio.ts`
lines 652-665): the `onVadStopCallback` receives the blob (returning its
size here) only when the blob is non-empty; otherwise nothing is surfaced. -/
def stopVADRecordingEmit (chunks : List Nat) : Option Nat :=
  let size := vadBlobSize chunks
  if 0 < size then some size else none

/-- The VAD stop callback wired in `handleToggleVAD`
(`src/unnamed/part_016` lines 740-771): it skips the segment when a send is
already in flight and otherwise posts it to `/api/transcribe` unconditionally
— there is no size floor on this path. -/
def vadOnStopTranscribes (isSending : Bool) (_blobSize : Nat) : Bool :=
  !isSending

/-- Size of the segment the VAD capture path forwards to the speech-to-text
collaborator, if any. -/
def vadPathTranscribes (isSending : Bool) (chunks : List Nat) : Option Nat :=
  match stopVADRecordingEmit chunks with
  | some size => if vadOnStopTranscribes isSending size then some size else none
  | none => none

/-- Outcome of the manual recording stop handler. -/
inductive StopOutcome where
  | tooShortTime (durationSec : Nat)
  | emptyBlob
  | tooSmall (size : Nat)
  | transcribeRequested (size : Nat)
  deriving DecidableEq, Repr

/-- `handleStopRecording` (`src/unnamed/part_016` second revision,
lines 1269-1334): recordings shorter than 2 seconds are refused, an absent
or empty blob is refused, blobs under 2048 bytes are refused
(lines 1309-1317), and only then is `/api/transcribe` called. -/
def handleStopRecording (durationSec : Nat) (blob : Option Nat) : StopOutcome :=
  if durationSec < 2 then .tooShortTime durationSec
  else
    match blob with
    | none => .emptyBlob
    | some size =>
      if size = 0 then .emptyBlob
      else if size < 2048 then .tooSmall size
      else .transcribeRequested size

/-! ### Helper lemmas about event origins -/

theorem silenceFire_events (cfg : VadConfig) (s : VadState) (d : Nat) :
    ∀ e ∈ (silenceFire cfg s d).2,
      (∃ dur, e = .discarded dur ∧ dur < cfg.minRecordingDuration) ∨
      (∃ dur, e = .speechEnded dur ∧ cfg.minRecordingDuration ≤ dur) := by
  intro e he
  simp only [silenceFire] at he
  split_ifs at he with h
  · exact Or.inl ⟨_, by simpa using he, h⟩
  · exact Or.inr ⟨_, by simpa using he, Nat.le_of_not_lt h⟩

theorem vadTick_interrupt_mem (cfg : VadConfig) (s : VadState) (now : Nat)
    (level : ℚ) (h : VoiceEvent.interrupt ∈ (vadTick cfg s now level).2) :
    s.isInterruptMode = true ∧ (cfg.vadInterruptThreshold : ℚ) < level := by
  simp only [vadTick] at h
  split_ifs at h <;> simp_all

theorem vadTick_started_mem (cfg : VadConfig) (s : VadState) (now : Nat)
    (level : ℚ) (h : VoiceEvent.speechStarted ∈ (vadTick cfg s now level).2) :
    (cfg.vadThreshold : ℚ) < level ∨ (cfg.vadInterruptThreshold : ℚ) < level := by
  simp only [vadTick] at h
  split_ifs at h <;> simp_all

theorem vadTick_no_ended (cfg : VadConfig) (s : VadState) (now : Nat)
    (level : ℚ) (d : Nat) :
    VoiceEvent.speechEnded d ∉ (vadTick cfg s now level).2 := by
  simp only [vadTick]
  split_ifs <;> simp

theorem vadStep_mem (cfg : VadConfig) (s : VadState) (now : Nat) (level : ℚ)
    (t : Nat) (e : VoiceEvent) (h : (t, e) ∈ (vadStep cfg s now level).2) :
    (∃ s' d, e ∈ (silenceFire cfg s' d).2) ∨
      ∃ s', e ∈ (vadTick cfg s' now level).2 := by
  unfold vadStep at h
  rcases hd : s.silenceDeadline with _ | d <;> rw [hd] at h
  · simp only [List.mem_map, Prod.mk.injEq] at h
    obtain ⟨e', he', -, rfl⟩ := h
    exact Or.inr ⟨s, he'⟩
  · by_cases hdn : d ≤ now
    · simp only [hdn, if_pos, List.mem_append, List.mem_map, Prod.mk.injEq] at h
      rcases h with ⟨e', he', -, rfl⟩ | ⟨e', he', -, rfl⟩
      · exact Or.inl ⟨s, d, he'⟩
      · exact Or.inr ⟨_, he'⟩
    · simp only [hdn, if_neg, List.mem_map, Prod.mk.injEq, not_false_iff] at h
      obtain ⟨e', he', -, rfl⟩ := h
      exact Or.inr ⟨s, he'⟩

theorem runVAD_no_interrupt (cfg : VadConfig) :
    ∀ (samples : List (Nat × ℚ)) (s : VadState),
      (∀ p ∈ samples, p.2 ≤ (cfg.vadInterruptThreshold : ℚ)) →
      ∀ t, (t, VoiceEvent.interrupt) ∉ (runVAD cfg s samples).2 := by
  intro samples
  induction samples with
  | nil => intro s _ t h; simp [runVAD] at h
  | cons p rest ih =>
    intro s hlev t h
    obtain ⟨tp, lp⟩ := p
    simp only [runVAD, List.mem_append] at h
    rcases h with h | h
    · rcases vadStep_mem cfg s tp lp t _ h with ⟨s', d, hf⟩ | ⟨s', ht⟩
      · rcases silenceFire_events cfg s' d _ hf with ⟨_, h, _⟩ | ⟨_, h, _⟩ <;> cases h
      · have := (vadTick_interrupt_mem cfg s' tp lp ht).2
        exact absurd (hlev (tp, lp) (List.mem_cons_self _ _)) (not_le.mpr this)
    · exact ih _ (fun q hq => hlev q (List.mem_cons_of_mem _ hq)) t h

theorem runVAD_ended_duration (cfg : VadConfig) :
    ∀ (samples : List (Nat × ℚ)) (s : VadState) (t d : Nat),
      (t, VoiceEvent.speechEnded d) ∈ (runVAD cfg s samples).2 →
      cfg.minRecordingDuration ≤ d := by
  intro samples
  induction samples with
  | nil => intro s t d h; simp [runVAD] at h
  | cons p rest ih =>
    intro s t d h
    obtain ⟨tp, lp⟩ := p
    simp only [runVAD, List.mem_append] at h
    rcases h with h | h
    · rcases vadStep_mem cfg s tp lp t _ h with ⟨s', d', hf⟩ | ⟨s', ht⟩
      · rcases silenceFire_events cfg s' d' _ hf with ⟨_, h, _⟩ | ⟨_, h, hd⟩
        · cases h
        · cases h; exact hd
      · exact absurd ht (vadTick_no_ended cfg s' tp lp d)
    · exact ih _ t d h

theorem runVAD_no_started_below (samples : List (Nat × ℚ)) :
    ∀ (s : VadState),
      (∀ p ∈ samples, p.2 < ((defaultConfig).vadThreshold : ℚ)) →
      ∀ t, (t, VoiceEvent.speechStarted) ∉ (runVAD defaultConfig s samples).2 := by
  induction samples with
  | nil => intro s _ t h; simp [runVAD] at h
  | cons p rest ih =>
    intro s hlev t h
    obtain ⟨tp, lp⟩ := p
    simp only [runVAD, List.mem_append] at h
    rcases h with h | h
    · rcases vadStep_mem defaultConfig s tp lp t _ h with ⟨s', d, hf⟩ | ⟨s', ht⟩
      · rcases silenceFire_events defaultConfig s' d _ hf with ⟨_, h, _⟩ | ⟨_, h, _⟩ <;>
          cases h
      · have hlp := hlev (tp, lp) (List.mem_cons_self _ _)
        have h75 : (75 : ℚ) ≤ 85 := by norm_num
        rcases vadTick_started_mem defaultConfig s' tp lp ht with hgt | hgt
        · exact absurd hlp (not_lt.mpr (le_of_lt hgt))
        · exact absurd hlp
            (not_lt.mpr (le_of_lt (lt_of_le_of_lt h75 hgt)))
    · exact ih _ (fun q hq => hlev q (List.mem_cons_of_mem _ hq)) t h

/-- An attainable level at or above the interrupt threshold is strictly
above it: `(max / 255) * 100 = 85` has no integer solution, so the least
byte reaching 85 is 217, whose level is 21700/255 > 85. -/
theorem levelOf_ge_interrupt (m : Nat) (h : (85 : ℚ) ≤ levelOf m) :
    (85 : ℚ) < levelOf m := by
  unfold levelOf at *
  rw [div_mul_eq_mul_div, le_div_iff₀ (by norm_num : (0:ℚ) < 255)] at h
  rw [div_mul_eq_mul_div, lt_div_iff₀ (by norm_num : (0:ℚ) < 255)]
  have hm : (21675 : ℚ) ≤ (m : ℚ) * 100 := by linarith
  have hm' : (21675 : Nat) ≤ m * 100 := by exact_mod_cast hm
  have : (21700 : Nat) ≤ m * 100 := by omega
  have : (21700 : ℚ) ≤ (m : ℚ) * 100 := by exact_mod_cast this
  linarith

theorem silenceFire_interruptMode (cfg : VadConfig) (s : VadState) (d : Nat) :
    (silenceFire cfg s d).1.isInterruptMode = s.isInterruptMode := by
  simp only [silenceFire]
  split_ifs <;> rfl

theorem vadTick_interrupt_fires (cfg : VadConfig) (s : VadState) (now : Nat)
    (level : ℚ) (hI : s.isInterruptMode = true)
    (hL : (cfg.vadInterruptThreshold : ℚ) < level) :
    vadTick cfg s now level =
      ({ s with isInterruptMode := false, isVadRecording := true,
                recordingStartTime := now },
       [.interrupt, .speechStarted]) := by
  simp [vadTick, hI, hL]

theorem vadStep_interrupt_fires (cfg : VadConfig) (s : VadState) (now : Nat)
    (level : ℚ) (hI : s.isInterruptMode = true)
    (hL : (cfg.vadInterruptThreshold : ℚ) < level) :
    (now, VoiceEvent.interrupt) ∈ (vadStep cfg s now level).2 ∧
      (now, VoiceEvent.speechStarted) ∈ (vadStep cfg s now level).2 ∧
      (vadStep cfg s now level).1.isVadRecording = true ∧
      (vadStep cfg s now level).1.isInterruptMode = false := by
  unfold vadStep
  rcases hd : s.silenceDeadline with _ | d
  · simp [vadTick_interrupt_fires cfg s now level hI hL]
  · by_cases hdn : d ≤ now
    · have hI' : (silenceFire cfg s d).1.isInterruptMode = true := by
        rw [silenceFire_interruptMode]; exact hI
      simp [hdn, vadTick_interrupt_fires cfg _ now level hI' hL]
    · simp [hdn, vadTick_interrupt_fires cfg s now level hI hL]

/-- Claim C2: while the recorder is armed for barge-in
(`isInterruptMode = true`, which the app enables only while AI audio is
playing), a single analyser sample whose derived level `(max/255)*100`
reaches the interrupt threshold 85 raises `interrupt` within that same
monitor tick, with no continuity-window requirement — a level at or above
85 is necessarily strictly above it because `(max/255)*100 = 85` has no
integer solution — and a sample sequence whose levels never reach 85 never
raises `interrupt`, from any recorder state. -/
theorem C2_interrupt_on_threshold_within_tick :
    (∀ (s : VadState) (now m : Nat),
      s.isInterruptMode = true → (85 : ℚ) ≤ levelOf m →
      (now, VoiceEvent.interrupt) ∈ (vadStep defaultConfig s now (levelOf m)).2) ∧
    (∀ (samples : List (Nat × Nat)) (s : VadState),
      (∀ p ∈ samples, levelOf p.2 < 85) →
      ∀ t, (t, VoiceEvent.interrupt) ∉
        (runVAD defaultConfig s (samples.map (fun p => (p.1, levelOf p.2)))).2) := by
  constructor
  · intro s now m hI hle
    exact (vadStep_interrupt_fires defaultConfig s now (levelOf m) hI
      (levelOf_ge_interrupt m hle)).1
  · intro samples s hlev t
    apply runVAD_no_interrupt defaultConfig _ s
    intro p hp
    simp only [List.mem_map] at hp
    obtain ⟨q, hq, rfl⟩ := hp
    exact le_of_lt (hlev q hq)

/-- Witness for C2: byte 217 gives level 21700/255 ≥ 85 and fires the
interrupt in its own tick; bytes 100 and 216 stay below 85 and never fire. -/
theorem C2_interrupt_on_threshold_within_tick_witness :
    (5000, VoiceEvent.interrupt) ∈
      (vadStep defaultConfig { initVad with isInterruptMode := true } 5000
        (levelOf 217)).2 ∧
    (0, VoiceEvent.interrupt) ∉
      (runVAD defaultConfig initVad
        ([(0, 100), (100, 216)].map (fun p => (p.1, levelOf p.2)))).2 :=
  ⟨C2_interrupt_on_threshold_within_tick.1 _ 5000 217 rfl
     (by unfold levelOf; norm_num),
   C2_interrupt_on_threshold_within_tick.2 [(0, 100), (100, 216)] initVad
     (by intro p hp; fin_cases hp <;> (unfold levelOf; norm_num)) 0⟩

/-- Claim C5: an utterance whose recorded duration (the span from the
recording start at `SpeechStarted` to the silence timeout that ends it) is
below `minRecordingDuration` (default 1000ms) is discarded without invoking
`onVadStopCallback`, so the speech-to-text collaborator is never invoked for
it: in every run, every `speechEnded` (the only event that forwards to STT)
carries a duration of at least the floor; and concretely a captured segment
of 900ms is discarded — the trace holds only `speechStarted` and
`discarded 900`, and no STT-forwarding event. -/
theorem C5_short_utterance_never_reaches_stt :
    (∀ (cfg : VadConfig) (s : VadState) (samples : List (Nat × ℚ)) (t d : Nat),
      (t, VoiceEvent.speechEnded d) ∈ (runVAD cfg s samples).2 →
      cfg.minRecordingDuration ≤ d) ∧
    (runVAD defaultConfig initVad
        (ticksFrom 1000 (List.replicate 9 (90 : ℚ) ++ List.replicate 5 0))).2 =
      [(1400, .speechStarted), (2300, .discarded 900)] ∧
    ((runVAD defaultConfig initVad
        (ticksFrom 1000 (List.replicate 9 (90 : ℚ) ++ List.replicate 5 0))).2.all
      (fun te => ¬forwardsToSTT te.2)) := by
  refine ⟨fun cfg s samples t d h => runVAD_ended_duration cfg samples s t d h,
    by decide, by decide⟩

/-- Witness for C5: a 1300ms utterance does end in a `speechEnded`, and the
duration bound applies to it. -/
theorem C5_short_utterance_never_reaches_stt_witness :
    (1000 : Nat) ≤ 1300 :=
  C5_short_utterance_never_reaches_stt.1 defaultConfig initVad
    (ticksFrom 1000 (List.replicate 13 (90 : ℚ) ++ List.replicate 5 0)) 2700 1300
    (by decide)

/-- Claim C7: for every sequence of samples whose levels stay strictly below
the onset threshold (default 75), the VAD never starts a recording and never
invokes the speech-start callback, from any recorder state — in particular
in both normal and interrupt modes. -/
theorem C7_below_onset_no_speech_started :
    ∀ (s : VadState) (samples : List (Nat × ℚ)),
      (∀ p ∈ samples, p.2 < ((defaultConfig).vadThreshold : ℚ)) →
      ∀ t, (t, VoiceEvent.speechStarted) ∉ (runVAD defaultConfig s samples).2 :=
  fun s samples h t => runVAD_no_started_below samples s h t

/-- Witness for C7: quiet samples in interrupt mode start nothing. -/
theorem C7_below_onset_no_speech_started_witness :
    (1000, VoiceEvent.speechStarted) ∉
      (runVAD defaultConfig { initVad with isInterruptMode := true }
        [(1000, 50), (1100, 74)]).2 :=
  C7_below_onset_no_speech_started _ _ (by decide) 1000

/-! ### Continuity-window lemmas (claim C6) -/

/-- The monitor is quiescent: not paused, not in interrupt mode, not
recording, no pending silence timeout. -/
def Quiet (s : VadState) : Prop :=
  s.vadPaused = false ∧ s.isInterruptMode = false ∧
    s.isVadRecording = false ∧ s.silenceDeadline = none

theorem setDeadline_none_eta (s : VadState) (h : s.silenceDeadline = none) :
    { s with silenceDeadline := none } = s := by
  cases s; simp_all

theorem runVAD_append (cfg : VadConfig) (l1 l2 : List (Nat × ℚ)) :
    ∀ s : VadState,
      runVAD cfg s (l1 ++ l2) =
        ((runVAD cfg (runVAD cfg s l1).1 l2).1,
         (runVAD cfg s l1).2 ++ (runVAD cfg (runVAD cfg s l1).1 l2).2) := by
  induction l1 with
  | nil => intro s; simp [runVAD]
  | cons p rest ih =>
    intro s
    obtain ⟨t, l⟩ := p
    simp [runVAD, ih]

theorem ticksFrom_append (a b : List ℚ) :
    ∀ t : Nat,
      ticksFrom t (a ++ b) = ticksFrom t a ++ ticksFrom (t + 100 * a.length) b := by
  induction a with
  | nil => intro t; simp [ticksFrom]
  | cons l ls ih =>
    intro t
    rw [List.cons_append]
    show (t, l) :: ticksFrom (t + 100) (ls ++ b) =
      ((t, l) :: ticksFrom (t + 100) ls) ++ ticksFrom (t + 100 * (l :: ls).length) b
    rw [List.cons_append, ih (t + 100), List.length_cons]
    have h : t + 100 + 100 * ls.length = t + 100 * (ls.length + 1) := by ring
    rw [h]

/-- A sample at or below the onset threshold, received while quiescent, only
resets the tentative onset. -/
theorem vadStep_quiet_low (cfg : VadConfig) (s : VadState) (now : Nat)
    (level : ℚ) (hq : Quiet s) (hlev : ¬((cfg.vadThreshold : ℚ) < level)) :
    vadStep cfg s now level = ({ s with voiceStartTime := 0 }, []) := by
  obtain ⟨hp, hi, hr, hd⟩ := hq
  simp [vadStep, hd, vadTick, hp, hi, hr, hlev]

/-- A quiescent monitor emits nothing on any run of sub-threshold samples. -/
theorem runVAD_quiet_low (cfg : VadConfig) (lo : ℚ)
    (hlev : ¬((cfg.vadThreshold : ℚ) < lo)) :
    ∀ (m t : Nat) (s : VadState), Quiet s →
      (runVAD cfg s (ticksFrom t (List.replicate m lo))).2 = [] := by
  intro m
  induction m with
  | zero => intro t s _; simp [runVAD, ticksFrom]
  | succ n ih =>
    intro t s hq
    rw [List.replicate_succ]
    simp only [ticksFrom, runVAD]
    rw [vadStep_quiet_low cfg s t lo hq hlev]
    obtain ⟨hp, hi, hr, hd⟩ := hq
    simpa using ih (t + 100) { s with voiceStartTime := 0 } ⟨hp, hi, hr, hd⟩

/-- The first above-threshold sample after quiescence only records the
tentative onset time: the continuity window (400ms by default) has not
elapsed yet. -/
theorem vadStep_high_first (s : VadState) (now : Nat) (hi : ℚ) (hq : Quiet s)
    (hv : s.voiceStartTime = 0)
    (hhi : ((defaultConfig).vadThreshold : ℚ) < hi) :
    vadStep defaultConfig s now hi = ({ s with voiceStartTime := now }, []) := by
  obtain ⟨hp, hint, hr, hd⟩ := hq
  have hhi' : (75 : ℚ) < hi := by simpa [defaultConfig] using hhi
  simp [vadStep, hd, vadTick, hp, hint, hr, hv, hhi', defaultConfig]

/-- While the tentative onset stands at `v > 0` and fewer than 400ms have
elapsed, further above-threshold samples at the 100ms cadence leave the
monitor unchanged and emit nothing. -/
theorem runVAD_high_pending (hi : ℚ)
    (hhi : ((defaultConfig).vadThreshold : ℚ) < hi) :
    ∀ (j i v : Nat) (s : VadState), Quiet s → s.voiceStartTime = v → 0 < v →
      i + j ≤ 4 →
      runVAD defaultConfig s (ticksFrom (v + 100 * i) (List.replicate j hi)) =
        (s, []) := by
  intro j
  induction j with
  | zero => intro i v s _ _ _ _; simp [runVAD, ticksFrom]
  | succ n ih =>
    intro i v s hq hv hvpos hij
    obtain ⟨hp, hint, hr, hd⟩ := hq
    have hhi' : (75 : ℚ) < hi := by simpa [defaultConfig] using hhi
    rw [List.replicate_succ]
    simp only [ticksFrom, runVAD]
    have hstep :
        vadStep defaultConfig s (v + 100 * i) hi =
          ({ s with silenceDeadline := none }, []) := by
      have hvne : ¬s.voiceStartTime = 0 := by omega
      have hdur : ¬((400 : Nat) ≤ v + 100 * i - s.voiceStartTime) := by omega
      simp [vadStep, hd, vadTick, hp, hint, hr, hvne, hhi', hdur, defaultConfig]
    rw [hstep, setDeadline_none_eta s hd]
    have := ih (i + 1) v s ⟨hp, hint, hr, hd⟩ hv hvpos (by omega)
    have harith : v + 100 * i + 100 = v + 100 * (i + 1) := by ring
    simpa [harith] using this

/-- Claim C6: with onset threshold 75 and continuity window 400ms, a level
run that exceeds the onset threshold for at most 4 consecutive 100ms samples
(spanning at most 300ms, hence less than the 400ms window) and then falls
back to or below the threshold emits no event at all, starting from the
fresh VAD state at any positive wall-clock time; and a level of 80 held for
500ms (5 consecutive samples) emits `speechStarted` exactly 400ms after the
level first exceeded the threshold (here: first sample at t=1000,
`speechStarted` at t=1400). -/
theorem C6_short_spike_no_events_hold_starts :
    (∀ (t0 k m : Nat) (hi lo : ℚ),
      0 < t0 → k ≤ 4 →
      ((defaultConfig).vadThreshold : ℚ) < hi →
      ¬(((defaultConfig).vadThreshold : ℚ) < lo) →
      (runVAD defaultConfig initVad
        (ticksFrom t0 (List.replicate k hi ++ List.replicate m lo))).2 = []) ∧
    (runVAD defaultConfig initVad
        (ticksFrom 1000 (List.replicate 5 (80 : ℚ)))).2 =
      [(1400, VoiceEvent.speechStarted)] := by
  constructor
  · intro t0 k m hi lo ht0 hk hhi hlo
    have hq0 : Quiet initVad := ⟨rfl, rfl, rfl, rfl⟩
    rw [ticksFrom_append, runVAD_append]
    have hspike :
        runVAD defaultConfig initVad (ticksFrom t0 (List.replicate k hi)) =
          (if k = 0 then initVad else { initVad with voiceStartTime := t0 }, []) := by
      rcases k with _ | j
      · simp [runVAD, ticksFrom]
      · rw [List.replicate_succ]
        simp only [ticksFrom, runVAD]
        rw [vadStep_high_first initVad t0 hi hq0 rfl hhi]
        have h2 :=
          runVAD_high_pending hi hhi j 1 t0 { initVad with voiceStartTime := t0 }
            ⟨rfl, rfl, rfl, rfl⟩ rfl ht0 (by omega)
        simp only [Nat.mul_one] at h2
        simp [h2]
    rw [hspike]
    have hlows :
        ∀ s : VadState, Quiet s →
          (runVAD defaultConfig s
            (ticksFrom (t0 + 100 * (List.replicate k hi).length)
              (List.replicate m lo))).2 = [] := fun s hs =>
      runVAD_quiet_low defaultConfig lo hlo m _ s hs
    rcases k with _ | j
    · simp only [if_pos rfl]
      simpa using hlows initVad hq0
    · simp only [Nat.succ_ne_zero, if_neg, not_false_iff]
      simpa using hlows { initVad with voiceStartTime := t0 } ⟨rfl, rfl, rfl, rfl⟩
  · decide

/-- Witness for C6: a 300ms spike at level 90 (3 samples) followed by
silence produces zero events. -/
theorem C6_short_spike_no_events_hold_starts_witness :
    (runVAD defaultConfig initVad
      (ticksFrom 1000 (List.replicate 3 (90 : ℚ) ++ List.replicate 5 (0 : ℚ)))).2 =
      [] :=
  C6_short_spike_no_events_hold_starts.1 1000 3 5 90 0 (by norm_num) (by norm_num)
    (by norm_num [defaultConfig]) (by norm_num [defaultConfig])

/-! ### Interrupt handling across recorder and app (claims C1, C3) -/

theorem dispatch_non_interrupt (a : AppState) (e : VoiceEvent)
    (h : e ≠ VoiceEvent.interrupt) : dispatch a e = a := by
  cases e <;> simp [dispatch] at h ⊢

theorem foldl_dispatch_no_interrupt :
    ∀ (l : List (Nat × VoiceEvent)) (a : AppState),
      (∀ te ∈ l, te.2 ≠ VoiceEvent.interrupt) →
      l.foldl (fun a te => dispatch a te.2) a = a := by
  intro l
  induction l with
  | nil => intro a _; rfl
  | cons te rest ih =>
    intro a h
    simp only [List.foldl_cons]
    rw [dispatch_non_interrupt a te.2 (h te (List.mem_cons_self _ _))]
    exact ih a (fun q hq => h q (List.mem_cons_of_mem _ hq))

theorem vadStep_interrupt_shape (cfg : VadConfig) (v : VadState) (now : Nat)
    (level : ℚ) (hI : v.isInterruptMode = true)
    (hL : (cfg.vadInterruptThreshold : ℚ) < level) :
    ∃ (v1 : VadState) (pre : List (Nat × VoiceEvent)),
      vadStep cfg v now level =
        (v1, pre ++ [(now, .interrupt), (now, .speechStarted)]) ∧
      v1.isVadRecording = true ∧
      ∀ te ∈ pre, te.2 ≠ VoiceEvent.interrupt := by
  unfold vadStep
  rcases hd : v.silenceDeadline with _ | d
  · refine ⟨{ v with isInterruptMode := false, isVadRecording := true, recordingStartTime := now }, [], ?_, rfl, by simp⟩
    simp [vadTick_interrupt_fires cfg v now level hI hL]
  · by_cases hdn : d ≤ now
    · have hI' : (silenceFire cfg v d).1.isInterruptMode = true := by
        rw [silenceFire_interruptMode]; exact hI
      refine ⟨{ (silenceFire cfg v d).1 with isInterruptMode := false, isVadRecording := true, recordingStartTime := now },
        (silenceFire cfg v d).2.map (fun e => (d, e)), ?_, rfl, ?_⟩
      · simp [hdn, vadTick_interrupt_fires cfg _ now level hI' hL]
      · intro te hte
        simp only [List.mem_map] at hte
        obtain ⟨e, he, rfl⟩ := hte
        rcases silenceFire_events cfg v d e he with ⟨_, rfl, _⟩ | ⟨_, rfl, _⟩ <;> simp
    · refine ⟨{ v with isInterruptMode := false, isVadRecording := true, recordingStartTime := now }, [], ?_, rfl, by simp⟩
      simp [hdn, vadTick_interrupt_fires cfg v now level hI hL]

theorem vadStep_interrupt_mem (cfg : VadConfig) (v : VadState) (now : Nat)
    (level : ℚ) (t : Nat)
    (h : (t, VoiceEvent.interrupt) ∈ (vadStep cfg v now level).2) :
    v.isInterruptMode = true ∧ (cfg.vadInterruptThreshold : ℚ) < level := by
  unfold vadStep at h
  rcases hd : v.silenceDeadline with _ | d <;> rw [hd] at h
  · simp only [List.mem_map, Prod.mk.injEq] at h
    obtain ⟨e', he', -, rfl⟩ := h
    exact vadTick_interrupt_mem cfg v now level he'
  · by_cases hdn : d ≤ now
    · simp only [hdn, if_pos, List.mem_append, List.mem_map, Prod.mk.injEq] at h
      rcases h with ⟨e', he', -, rfl⟩ | ⟨e', he', -, rfl⟩
      · rcases silenceFire_events cfg v d _ he' with ⟨_, hc, _⟩ | ⟨_, hc, _⟩ <;> cases hc
      · have := vadTick_interrupt_mem cfg _ now level he'
        rw [silenceFire_interruptMode] at this
        exact this
    · simp only [hdn, if_neg, List.mem_map, Prod.mk.injEq, not_false_iff] at h
      obtain ⟨e', he', -, rfl⟩ := h
      exact vadTick_interrupt_mem cfg v now level he'

theorem appStep_interrupt (cfg : VadConfig) (s : AppState) (now : Nat)
    (level : ℚ) (hI : s.vad.isInterruptMode = true)
    (hL : (cfg.vadInterruptThreshold : ℚ) < level) :
    (appStep cfg s now level).1 =
      stopAllAudio { s with vad := (vadStep cfg s.vad now level).1 } ∧
    (now, VoiceEvent.interrupt) ∈ (appStep cfg s now level).2 ∧
    (now, VoiceEvent.speechStarted) ∈ (appStep cfg s now level).2 := by
  obtain ⟨v1, pre, heq, hrec, hpre⟩ :=
    vadStep_interrupt_shape cfg s.vad now level hI hL
  unfold appStep
  rw [heq]
  refine ⟨?_, by simp, by simp⟩
  simp only [List.foldl_append]
  rw [foldl_dispatch_no_interrupt pre _ hpre]
  simp [dispatch]

/-- Claim C1: when the interrupt fires while interrupt mode is armed (the
app arms it only while AI audio is playing), the very same monitor tick runs
`stopAllAudio` — the playback queue is emptied, the sounding Web Audio
source and the legacy audio element are stopped, the playing flag cleared,
the SSE reader cancelled — and a new VAD capture is started immediately
(`isVadRecording = true`, with `speechStarted` emitted in the same tick):
the system is left listening, not idle. -/
theorem C1_interrupt_stops_audio_and_listens (s : AppState) (now : Nat)
    (level : ℚ) (hI : s.vad.isInterruptMode = true)
    (hL : ((defaultConfig).vadInterruptThreshold : ℚ) < level) :
    (appStep defaultConfig s now level).1.pb.audioQueue = [] ∧
    (appStep defaultConfig s now level).1.pb.currentAudioSource = false ∧
    (appStep defaultConfig s now level).1.pb.currentAudio = false ∧
    (appStep defaultConfig s now level).1.pb.isPlaying = false ∧
    (appStep defaultConfig s now level).1.pb.streamReader = false ∧
    (appStep defaultConfig s now level).1.vad.isVadRecording = true ∧
    (now, VoiceEvent.interrupt) ∈ (appStep defaultConfig s now level).2 ∧
    (now, VoiceEvent.speechStarted) ∈ (appStep defaultConfig s now level).2 := by
  obtain ⟨heq, hint, hstart⟩ := appStep_interrupt defaultConfig s now level hI hL
  obtain ⟨v1, pre, hvs, hrec, -⟩ :=
    vadStep_interrupt_shape defaultConfig s.vad now level hI hL
  rw [heq, hvs]
  exact ⟨rfl, rfl, rfl, rfl, rfl, hrec, hint, hstart⟩

/-- Witness for C1: a concrete armed state with a full queue, an active
reader and a sounding source, hit by a level-90 sample. -/
theorem C1_interrupt_stops_audio_and_listens_witness :
    (appStep defaultConfig
      { vad := { initVad with isInterruptMode := true },
        pb := { audioQueue := [⟨[7], "a"⟩, ⟨[8], "b"⟩, ⟨[9], "c"⟩],
                isPlaying := true, currentAudio := true,
                interruptModeEnabled := true, streamReader := true,
                playbackLoopRunning := true, resolveWaiter := false,
                currentAudioSource := true } }
      5000 90).1.pb.audioQueue = [] ∧
    (appStep defaultConfig
      { vad := { initVad with isInterruptMode := true },
        pb := { audioQueue := [⟨[7], "a"⟩, ⟨[8], "b"⟩, ⟨[9], "c"⟩],
                isPlaying := true, currentAudio := true,
                interruptModeEnabled := true, streamReader := true,
                playbackLoopRunning := true, resolveWaiter := false,
                currentAudioSource := true } }
      5000 90).1.vad.isVadRecording = true := by
  have h := C1_interrupt_stops_audio_and_listens
    { vad := { initVad with isInterruptMode := true },
      pb := { audioQueue := [⟨[7], "a"⟩, ⟨[8], "b"⟩, ⟨[9], "c"⟩],
              isPlaying := true, currentAudio := true,
              interruptModeEnabled := true, streamReader := true,
              playbackLoopRunning := true, resolveWaiter := false,
              currentAudioSource := true } }
    5000 90 rfl (by norm_num [defaultConfig])
  exact ⟨h.1, h.2.2.2.2.2.1⟩

/-- Claim C3: every invocation of the interrupt handler `stopAllAudio`
leaves the SSE reader cancelled and the playback queue empty together —
there is no post-handler state with the reader cancelled but the queue
non-empty, or the queue cleared but the reader still active; and at every
monitor step that emits an `interrupt`, the step's final state has the
queue empty and the reader cancelled. -/
theorem C3_cancel_and_clear_together :
    (∀ s : AppState,
      (stopAllAudio s).pb.audioQueue = [] ∧
      (stopAllAudio s).pb.streamReader = false) ∧
    (∀ (s : AppState) (now t : Nat) (level : ℚ),
      (t, VoiceEvent.interrupt) ∈ (appStep defaultConfig s now level).2 →
      (appStep defaultConfig s now level).1.pb.audioQueue = [] ∧
      (appStep defaultConfig s now level).1.pb.streamReader = false) := by
  refine ⟨fun s => ⟨rfl, rfl⟩, ?_⟩
  intro s now t level h
  have h2 : (t, VoiceEvent.interrupt) ∈ (vadStep defaultConfig s.vad now level).2 := h
  have hIL := vadStep_interrupt_mem defaultConfig s.vad now level t h2
  obtain ⟨heq, -, -⟩ := appStep_interrupt defaultConfig s now level hIL.1 hIL.2
  rw [heq]
  exact ⟨rfl, rfl⟩

/-- Witness for C3: the second conjunct applied at a concrete armed state
whose step does emit an interrupt. -/
theorem C3_cancel_and_clear_together_witness :
    (appStep defaultConfig
      { vad := { initVad with isInterruptMode := true },
        pb := { audioQueue := [⟨[1], "x"⟩], streamReader := true } }
      5000 90).1.pb.audioQueue = [] ∧
    (appStep defaultConfig
      { vad := { initVad with isInterruptMode := true },
        pb := { audioQueue := [⟨[1], "x"⟩], streamReader := true } }
      5000 90).1.pb.streamReader = false :=
  C3_cancel_and_clear_together.2
    { vad := { initVad with isInterruptMode := true },
      pb := { audioQueue := [⟨[1], "x"⟩], streamReader := true } }
    5000 5000 90 (by decide)

/-! ### Playback-loop termination (claim C4) -/

/-- Claim C4 says the playback loop terminates exactly when the reply stream
has ended and the queue is empty, every chunk enqueued before end-of-stream
eventually playing.  The code instead clears `playbackLoopRunning`
immediately after the SSE read loop finishes (`src/unnamed/part_016`
line 411), and the loop's next check breaks out regardless of the queue:
this schedule delivers chunks `a` and `b`, starts playing `a`, sees the
stream end, finishes `a`, and exits with `b` still queued and never
played. -/
theorem C4_counterexample :
    runSession {}
        [SessionLabel.deliver ⟨[1], "a"⟩, SessionLabel.deliver ⟨[2], "b"⟩,
         SessionLabel.loopRun, SessionLabel.streamEnd, SessionLabel.finishPlay,
         SessionLabel.loopRun] =
      { queue := [⟨[2], "b"⟩], isPlaying := false, running := false,
        waiter := false, streamEnded := true, played := [⟨[1], "a"⟩],
        pc := .exited } := by
  decide

/-- Claim C4 amended: the playback loop terminates once the stream has ended
and the currently playing chunk (if any) has finished, regardless of whether
the queue is empty — once the running flag is down, the loop's next check
exits without touching the queue, and chunks still queued when the loop has
exited are never played thereafter. -/
theorem C4_loop_exits_on_stream_end :
    (∀ s : SessionState, s.pc = .ready → s.running = false →
      sessStep s .loopRun = { s with pc := .exited }) ∧
    (∀ (s : SessionState) (labels : List SessionLabel),
      s.pc = .exited → s.waiter = false →
      (runSession s labels).played = s.played ∧
      (runSession s labels).pc = .exited) := by
  constructor
  · intro s hpc hrun
    simp [sessStep, hpc, hrun]
  · intro s labels
    induction labels generalizing s with
    | nil => intro hpc hw; exact ⟨rfl, hpc⟩
    | cons lab rest ih =>
      intro hpc hw
      have h1 : (sessStep s lab).pc = .exited := by
        cases lab <;> simp [sessStep, hpc, hw]
      have h2 : (sessStep s lab).waiter = false := by
        cases lab <;> simp [sessStep, hpc, hw]
      have h3 : (sessStep s lab).played = s.played := by
        cases lab <;> simp [sessStep, hpc, hw]
      have hrun : runSession s (lab :: rest) = runSession (sessStep s lab) rest := rfl
      obtain ⟨hp, hq⟩ := ih (sessStep s lab) h1 h2
      exact ⟨by rw [hrun, hp, h3], by rw [hrun]; exact hq⟩

/-- Witness for C4 (amended): applied right after the counterexample's final
state. -/
theorem C4_loop_exits_on_stream_end_witness :
    sessStep { queue := [⟨[2], "b"⟩], running := false, streamEnded := true,
               played := [⟨[1], "a"⟩], pc := .ready } .loopRun =
      { queue := [⟨[2], "b"⟩], running := false, streamEnded := true,
        played := [⟨[1], "a"⟩], pc := .exited } ∧
    (runSession { queue := [⟨[2], "b"⟩], running := false, streamEnded := true,
                  played := [⟨[1], "a"⟩], pc := .exited }
        [SessionLabel.deliver ⟨[3], "c"⟩, SessionLabel.loopRun,
         SessionLabel.finishPlay]).played = [⟨[1], "a"⟩] :=
  ⟨C4_loop_exits_on_stream_end.1 _ rfl rfl,
   (C4_loop_exits_on_stream_end.2 _ _ rfl rfl).1⟩

/-! ### Sequence numbers of reply chunks (claim C8) -/

/-- Claim C8 says out-of-order reply chunks are rejected, reordered or
flagged, with sequence numbers checked contiguous from 0.  The handler does
none of this: two events arriving with sequence numbers 1 then 0 are both
silently enqueued in arrival order, and no error is flagged. -/
theorem C8_counterexample :
    (consumeStream true
        [⟨1, "B", some [2], false⟩, ⟨0, "A", some [1], false⟩]).queue =
      [⟨[2], "B"⟩, ⟨[1], "A"⟩] ∧
    (consumeStream true
        [⟨1, "B", some [2], false⟩, ⟨0, "A", some [1], false⟩]).toastError =
      false :=
  ⟨rfl, rfl⟩

/-- Claim C8 amended: the SSE handler never inspects the sequence number —
replacing it in any event leaves the handler's result unchanged — and the
chunks carrying audio are enqueued exactly in arrival order (errors and
audio-less events are skipped); nothing is rejected, reordered or flagged on
account of sequence numbers. -/
theorem C8_chunks_played_in_arrival_order :
    (∀ (vadMode : Bool) (a : StreamAccum) (e : SSEEvent) (n : Nat),
      handleSSE vadMode a (setChunk n e) = handleSSE vadMode a e) ∧
    (∀ (vadMode : Bool) (evs : List SSEEvent) (a : StreamAccum),
      (evs.foldl (handleSSE vadMode) a).queue =
        a.queue ++
          (evs.filter (fun e => !e.error && e.audio.isSome)).map
            (fun e => ⟨e.audio.getD [], e.text⟩)) := by
  constructor
  · intro vadMode a e n
    simp [handleSSE, setChunk]
  · intro vadMode evs
    induction evs with
    | nil => intro a; simp
    | cons e rest ih =>
      intro a
      by_cases he : e.error
      · simp [List.foldl_cons, List.filter_cons, handleSSE, he, ih]
      · rcases ha : e.audio with _ | bytes
        · simp [List.foldl_cons, List.filter_cons, handleSSE, he, ha, ih]
        · simp [List.foldl_cons, List.filter_cons, handleSSE, he, ha, ih]

/-! ### Size floor on captured segments (claims C9, C10) -/

/-- Claim C9 says every capture path rejects finalized segments under 2048
bytes.  Only the manual path does: a VAD-captured 1000-byte segment is
forwarded to `/api/transcribe`. -/
theorem C9_counterexample :
    vadPathTranscribes false [1000] = some 1000 ∧ (1000 : Nat) < 2048 := by
  decide

/-- Claim C9 amended: the 2048-byte floor exists only on the manual
recording path — `handleStopRecording` requests a transcription only for
blobs of at least 2048 bytes — while the VAD capture path forwards every
non-empty capture, with no size floor beyond excluding empty blobs. -/
theorem C9_size_floor_manual_only :
    (∀ (durationSec : Nat) (blob : Option Nat) (size : Nat),
      handleStopRecording durationSec blob = .transcribeRequested size →
      2048 ≤ size) ∧
    (∀ chunks : List Nat, 0 < vadBlobSize chunks →
      vadPathTranscribes false chunks = some (vadBlobSize chunks)) := by
  constructor
  · intro durationSec blob size h
    rcases blob with _ | sz
    · simp only [handleStopRecording] at h
      split_ifs at h
    · simp only [handleStopRecording] at h
      split_ifs at h with hdur h0 h2048
      cases h
      omega
  · intro chunks hpos
    simp [vadPathTranscribes, stopVADRecordingEmit, vadOnStopTranscribes, hpos]

/-- Witness for C9 (amended): a 3000-byte manual blob passes the floor; a
1000-byte VAD capture is forwarded as-is. -/
theorem C9_size_floor_manual_only_witness :
    ((2048 : Nat) ≤ 3000) ∧ vadPathTranscribes false [1000] = some 1000 := by
  refine ⟨C9_size_floor_manual_only.1 5 (some 3000) 3000 (by decide), ?_⟩
  have h := C9_size_floor_manual_only.2 [1000] (by decide)
  simpa [vadBlobSize] using h

/-- Claim C10: the `onstop` handler of a VAD recording invokes
`onVadStopCallback` only when the assembled blob is non-empty; a zero-byte
capture is dropped silently — no callback, and nothing is forwarded for
recognition. -/
theorem C10_zero_byte_capture_dropped :
    (∀ (chunks : List Nat) (size : Nat),
      stopVADRecordingEmit chunks = some size → 0 < size) ∧
    (∀ chunks : List Nat, vadBlobSize chunks = 0 →
      stopVADRecordingEmit chunks = none ∧
      ∀ isSending : Bool, vadPathTranscribes isSending chunks = none) := by
  constructor
  · intro chunks size h
    simp only [stopVADRecordingEmit] at h
    split_ifs at h with hpos
    cases h
    exact hpos
  · intro chunks hzero
    have hemit : stopVADRecordingEmit chunks = none := by
      simp [stopVADRecordingEmit, hzero]
    exact ⟨hemit, fun isSending => by simp [vadPathTranscribes, hemit]⟩

/-- Witness for C10: a capture whose data chunks are all empty yields a
zero-byte blob, no callback, and no transcription request. -/
theorem C10_zero_byte_capture_dropped_witness :
    ((0 : Nat) < 2) ∧
    stopVADRecordingEmit [0, 0] = none ∧
    vadPathTranscribes false [0, 0] = none :=
  ⟨C10_zero_byte_capture_dropped.1 [2] 2 (by decide),
   (C10_zero_byte_capture_dropped.2 [0, 0] (by decide)).1,
   (C10_zero_byte_capture_dropped.2 [0, 0] (by decide)).2 false⟩

end Rollplay
